import Mathlib

/-!
Verification of the transfer-planning subsystem of an Opentrons-style
protocol API, shallowly embedded from
src/api/src/opentrons/protocol_api/contexts.py.

Volumes are modelled as rationals, wells and labware as abstract
identifiers, and the hardware / labware collaborators as function
parameters or state fields.  Each InstrumentContext method becomes a
function from an explicit state (location cache, attached-tip flag,
last-tip marker, configured tip racks) to a trace of primitive hardware
calls plus either a final state or a raised error.
-/

/-- A well, identified by an abstract id.  Geometry lives in the labware
collaborator and is out of scope. -/
structure Well where
  id : Nat
deriving DecidableEq

/-- The labware slot of a cached python Location object: a Well, a Labware,
or None. -/
inductive LocLabware
  | well (w : Well)
  | labware (l : Nat)
  | noneLw
deriving DecidableEq

/-- A position the gantry can be sent to, abstracting the geometry of
Well.top / Well.bottom: enough structure to record which well (and which
accessor) produced it. -/
inductive Loc
  | wellTop (w : Well)
  | wellTopAt (w : Well) (height : Rat)
  | wellBottomClearance (w : Well)
  | point (p : Nat) (lw : LocLabware)
deriving DecidableEq

/-- The labware field of a Location, as read by the python code
(location.labware).  Well.top() and friends carry their well. -/
def Loc.labware : Loc → LocLabware
  | Loc.wellTop w => LocLabware.well w
  | Loc.wellTopAt w _ => LocLabware.well w
  | Loc.wellBottomClearance w => LocLabware.well w
  | Loc.point _ lw => lw

/-- A python argument that may be a Well object, a types.Location, or some
other object (which the source rejects with TypeError). -/
inductive PyLoc
  | well (w : Well)
  | loc (l : Loc)
  | other
deriving DecidableEq

/-- A tip rack.  Its internal well/tip bookkeeping lives in the labware
collaborator (labware.py, outside src/); the interface consumed by
contexts.py is next_tip (the next available tip for a channel count, or
None) together with the is_tiprack flag and tip_length. -/
structure TipRack where
  rack_id : Nat
  is_tiprack : Bool := true
  tip_length : Rat := 0
  next_tip : Nat → Option Well

/-- Errors raised by the embedded methods.  keyError stands for the KeyError
a python Enum name lookup raises on an unknown member name. -/
inductive ApiError
  | noTipAttached
  | runtimeError
  | typeError
  | outOfTips
  | notImplemented
  | assertionError
  | indexError
  | keyError
deriving DecidableEq

/-- One primitive hardware / collaborator call, in the order the source
issues them. -/
inductive Prim
  | moveTo (l : Loc)
  | hwAspirate (volume : Option Rat) (rate : Rat)
  | hwDispense (volume : Option Rat) (rate : Rat)
  | hwBlowOut
  | touchEdge (w : Well) (radius v_offset speed : Rat) (edge : Nat)
  | hwPickUpTip (tip_length : Rat) (presses : Nat) (increment : Rat)
  | useTips (target : Well) (num_channels : Nat)
  | hwDropTip
deriving DecidableEq

/-- The mutable state an InstrumentContext and its ProtocolContext carry:
the protocol-wide location cache, the hardware pipette's has_tip flag, the
last-tip-picked-up-from marker, and the configured tip racks. -/
structure ApiState where
  location_cache : Option Loc := none
  has_tip : Bool := false
  last_tip_picked_up_from : Option Well := none
  tip_racks : List TipRack := []

/-- Result of one method call: the trace of primitive calls actually
issued, and either the updated state or the raised error. -/
abbrev ApiResult := List Prim × Except ApiError ApiState

/-- Sequencing: run the continuation only when the first part succeeded,
concatenating traces; an error keeps the trace issued so far. -/
def ApiResult.andThen (r : ApiResult) (f : ApiState → ApiResult) : ApiResult :=
  match r with
  | (tr, Except.ok s) =>
    let r2 := f s
    (tr ++ r2.1, r2.2)
  | (tr, Except.error e) => (tr, Except.error e)

/-- InstrumentContext.move_to as invoked by the other methods, specialized
to hardware moves that succeed: the gantry move is recorded and the
location cache is set to the target (the source's else-branch).  The full
exception behaviour is embedded separately in move_to_with_hardware. -/
def move_to (s : ApiState) (location : Loc) : ApiResult :=
  ([Prim.moveTo location], Except.ok { s with location_cache := some location })

/-- InstrumentContext.aspirate: a Well argument becomes a move to
well-bottom-plus-clearance, a Location argument a move to that location, no
location no move, anything else TypeError; then the hardware aspirate. -/
def aspirate (s : ApiState) (volume : Option Rat) (location : Option PyLoc)
    (rate : Rat) : ApiResult :=
  match location with
  | some (PyLoc.well w) =>
    (move_to s (Loc.wellBottomClearance w)).andThen fun s2 =>
      ([Prim.hwAspirate volume rate], Except.ok s2)
  | some (PyLoc.loc l) =>
    (move_to s l).andThen fun s2 =>
      ([Prim.hwAspirate volume rate], Except.ok s2)
  | some PyLoc.other => ([], Except.error ApiError.typeError)
  | none => ([Prim.hwAspirate volume rate], Except.ok s)

/-- InstrumentContext.dispense, symmetric to aspirate. -/
def dispense (s : ApiState) (volume : Option Rat) (location : Option PyLoc)
    (rate : Rat) : ApiResult :=
  match location with
  | some (PyLoc.well w) =>
    (move_to s (Loc.wellBottomClearance w)).andThen fun s2 =>
      ([Prim.hwDispense volume rate], Except.ok s2)
  | some (PyLoc.loc l) =>
    (move_to s l).andThen fun s2 =>
      ([Prim.hwDispense volume rate], Except.ok s2)
  | some PyLoc.other => ([], Except.error ApiError.typeError)
  | none => ([Prim.hwDispense volume rate], Except.ok s)

/-- The dispense/aspirate pairs of InstrumentContext.mix's for-loop over
range(repetitions - 1). -/
def mix_cycle (volume : Option Rat) (rate : Rat) : Nat → ApiState → ApiResult
  | 0, s => ([], Except.ok s)
  | n + 1, s =>
    (dispense s volume none rate).andThen fun s2 =>
      (aspirate s2 volume none rate).andThen (mix_cycle volume rate n)

/-- InstrumentContext.mix: raises NoTipAttachedError when the hardware
pipette has no tip, otherwise aspirate, (repetitions - 1) dispense/aspirate
pairs, and a final dispense. -/
def mix (s : ApiState) (repetitions : Nat) (volume : Option Rat)
    (location : Option PyLoc) (rate : Rat) : ApiResult :=
  if s.has_tip = false then ([], Except.error ApiError.noTipAttached)
  else
    (aspirate s volume location rate).andThen fun s2 =>
      (mix_cycle volume rate (repetitions - 1) s2).andThen fun s3 =>
        dispense s3 volume none rate

/-- InstrumentContext.blow_out: with no location, a None location cache is
RuntimeError, else the cached labware is used; only a Well is accepted
(the isinstance chain sends every non-Well, including a types.Location, to
TypeError); then move to the well top and the hardware blow_out. -/
def blow_out (s : ApiState) (location : Option PyLoc) : ApiResult :=
  let resolved : Except ApiError Well :=
    match location with
    | none =>
      match s.location_cache with
      | none => Except.error ApiError.runtimeError
      | some cached =>
        match cached.labware with
        | LocLabware.well w => Except.ok w
        | _ => Except.error ApiError.typeError
    | some (PyLoc.well w) => Except.ok w
    | some _ => Except.error ApiError.typeError
  match resolved with
  | Except.error e => ([], Except.error e)
  | Except.ok w =>
    (move_to s (Loc.wellTop w)).andThen fun s2 =>
      ([Prim.hwBlowOut], Except.ok s2)

/-- InstrumentContext.touch_tip: NoTipAttachedError first, then the speed
clamp, then location resolution (None location with None cache is
RuntimeError, a cached non-Well labware TypeError), then the move to the
well top and the four edge moves. -/
def touch_tip (s : ApiState) (location : Option Well)
    (radius v_offset speed : Rat) : ApiResult :=
  if s.has_tip = false then ([], Except.error ApiError.noTipAttached)
  else
    let speed := if speed > 80 then 80 else if speed < 20 then 20 else speed
    let resolved : Except ApiError Well :=
      match location with
      | some w => Except.ok w
      | none =>
        match s.location_cache with
        | none => Except.error ApiError.runtimeError
        | some cached =>
          match cached.labware with
          | LocLabware.well w => Except.ok w
          | _ => Except.error ApiError.typeError
    match resolved with
    | Except.error e => ([], Except.error e)
    | Except.ok w =>
      (move_to s (Loc.wellTop w)).andThen fun s2 =>
        ([Prim.touchEdge w radius v_offset speed 0,
          Prim.touchEdge w radius v_offset speed 1,
          Prim.touchEdge w radius v_offset speed 2,
          Prim.touchEdge w radius v_offset speed 3], Except.ok s2)

/-- InstrumentContext.air_gap: NoTipAttachedError first; a None cache, or a
cached labware that is not a Well, is RuntimeError; then move to
well.top(height) and aspirate (location None, rate 1). -/
def air_gap (s : ApiState) (volume : Option Rat) (height : Option Rat) :
    ApiResult :=
  if s.has_tip = false then ([], Except.error ApiError.noTipAttached)
  else
    let height := height.getD 5
    match s.location_cache with
    | none => ([], Except.error ApiError.runtimeError)
    | some cached =>
      match cached.labware with
      | LocLabware.well w =>
        (move_to s (Loc.wellTopAt w height)).andThen fun s2 =>
          aspirate s2 volume none 1
      | _ => ([], Except.error ApiError.runtimeError)

/-- The inner _select_tiprack_from_list of pick_up_tip: an empty list
raises OutOfTipsError (the caught IndexError), otherwise the head's
next_tip is taken if available, else the search recurses on the tail. -/
def select_tiprack_from_list (num_channels : Nat) :
    List TipRack → Except ApiError (TipRack × Well)
  | [] => Except.error ApiError.outOfTips
  | tr :: rest =>
    match tr.next_tip num_channels with
    | some w => Except.ok (tr, w)
    | none => select_tiprack_from_list num_channels rest

/-- The location argument of pick_up_tip: a Location whose labware is a
tip rack Labware, or one whose labware is a Well (with its parent rack). -/
inductive TipLoc
  | rack (tr : TipRack)
  | well (w : Well) (parent : TipRack)

/-- The tiprack/target selection of pick_up_tip: explicit rack location
uses its next_tip (possibly None), explicit well location uses that well,
no location searches the configured racks. -/
def pick_up_target (num_channels : Nat) (s : ApiState)
    (location : Option TipLoc) : Except ApiError (TipRack × Option Well) :=
  match location with
  | some (TipLoc.rack tr) => Except.ok (tr, tr.next_tip num_channels)
  | some (TipLoc.well w parent) => Except.ok (parent, some w)
  | none =>
    match select_tiprack_from_list num_channels s.tip_racks with
    | Except.ok (tr, w) => Except.ok (tr, some w)
    | Except.error e => Except.error e

/-- InstrumentContext.pick_up_tip: after selection, a None target raises
OutOfTipsError, a non-tiprack fails the assert, otherwise move to the
target top, the hardware pick_up_tip, the rack's use_tips, and the
last-tip marker is set to the target. -/
def pick_up_tip (num_channels : Nat) (presses : Nat) (increment : Rat)
    (s : ApiState) (location : Option TipLoc) : ApiResult :=
  match pick_up_target num_channels s location with
  | Except.error e => ([], Except.error e)
  | Except.ok (_, none) => ([], Except.error ApiError.outOfTips)
  | Except.ok (tiprack, some target) =>
    if tiprack.is_tiprack then
      (move_to s (Loc.wellTop target)).andThen fun s2 =>
        ([Prim.hwPickUpTip tiprack.tip_length presses increment,
          Prim.useTips target num_channels],
         Except.ok { s2 with last_tip_picked_up_from := some target })
    else ([], Except.error ApiError.assertionError)

/-- The InstrumentContext.trash_container property: its getter
unconditionally raises NotImplementedError. -/
def trash_container : Except ApiError (List Well) :=
  Except.error ApiError.notImplemented

/-- The location argument of drop_tip: a Location whose labware is a
Labware (with its wells), a Location whose labware is a Well, or a
Location whose labware is anything else (which falls through to the trash
branch, exactly as the isinstance chain does). -/
inductive DropLoc
  | labware (wells : List Well)
  | well (w : Well)
  | otherLoc
deriving DecidableEq

/-- InstrumentContext.drop_tip: a Labware location targets its first well
(IndexError when it has none), a Well location targets that well, and
everything else (including no location at all) reads trash_container,
whose getter raises NotImplementedError; on success the tip is dropped at
the target top and the last-tip marker is cleared. -/
def drop_tip (s : ApiState) (location : Option DropLoc) : ApiResult :=
  let target : Except ApiError Well :=
    match location with
    | some (DropLoc.labware wells) =>
      match wells.head? with
      | some w => Except.ok w
      | none => Except.error ApiError.indexError
    | some (DropLoc.well w) => Except.ok w
    | _ =>
      match trash_container with
      | Except.error e => Except.error e
      | Except.ok wells =>
        match wells.head? with
        | some w => Except.ok w
        | none => Except.error ApiError.indexError
  match target with
  | Except.error e => ([], Except.error e)
  | Except.ok w =>
    (move_to s (Loc.wellTop w)).andThen fun s2 =>
      ([Prim.hwDropTip], Except.ok { s2 with last_tip_picked_up_from := none })

/-- InstrumentContext.return_tip: a missing tip only logs a warning; a
last-tip marker that is not a Well (i.e. None) raises TypeError; otherwise
drop_tip at the marker well's top. -/
def return_tip (s : ApiState) : ApiResult :=
  match s.last_tip_picked_up_from with
  | none => ([], Except.error ApiError.typeError)
  | some w => drop_tip s (some (DropLoc.well w))

/-- The for-loop of InstrumentContext.move_to over the planned moves: each
hardware move may raise; the first raise aborts the loop. -/
def run_moves (hw_move : Nat → Except Nat Unit) : List Nat → Except Nat Unit
  | [] => Except.ok ()
  | m :: rest =>
    match hw_move m with
    | Except.ok _ => run_moves hw_move rest
    | Except.error e => Except.error e

/-- InstrumentContext.move_to with the hardware collaborator explicit: the
moves list is geometry.plan_moves' output and hw_move the hardware move_to.
On any raise the except-branch clears the location cache and re-raises; on
success the else-branch sets the cache to the requested location. -/
def move_to_with_hardware (hw_move : Nat → Except Nat Unit)
    (moves : List Nat) (_cache : Option Loc) (location : Loc) :
    Option Loc × Except Nat Unit :=
  match run_moves hw_move moves with
  | Except.ok _ => (some location, Except.ok ())
  | Except.error e => (none, Except.error e)

/-- Modelled from the spec: the TransferTipPolicy names (opentrons/types.py
is not in src/); the tip policies are NEVER, ONCE and ALWAYS. -/
inductive TransferTipPolicy
  | NEVER
  | ONCE
  | ALWAYS
deriving DecidableEq

/-- Modelled from the spec: python Enum name lookup on TransferTipPolicy,
defined on exactly the member names; an unknown name has no member (the
Enum getitem raises KeyError there). -/
def TransferTipPolicy.lookup : String → Option TransferTipPolicy
  | "NEVER" => some TransferTipPolicy.NEVER
  | "ONCE" => some TransferTipPolicy.ONCE
  | "ALWAYS" => some TransferTipPolicy.ALWAYS
  | _ => none

/-- Modelled from the spec: transfers.MixStrategy (transfers.py is not in
src/). -/
inductive MixStrategy
  | NEVER
  | BEFORE
  | AFTER
  | BOTH
deriving DecidableEq

/-- Modelled from the spec: transfers.BlowOutStrategy. -/
inductive BlowOutStrategy
  | NONE
  | TRASH
deriving DecidableEq

/-- Modelled from the spec: transfers.TouchTipStrategy. -/
inductive TouchTipStrategy
  | NEVER
  | ALWAYS
deriving DecidableEq

/-- Modelled from the spec: transfers.DropTipStrategy. -/
inductive DropTipStrategy
  | RETURN
  | TRASH
deriving DecidableEq

/-- Modelled from the spec: one side of transfers.Mix, a (repetitions,
volume) pair. -/
structure MixOpt where
  repetitions : Nat := 0
  volume : Rat := 0
deriving DecidableEq

/-- Modelled from the spec: transfers.Mix, before- and after-mix options. -/
structure Mix where
  mix_before : MixOpt := {}
  mix_after : MixOpt := {}
deriving DecidableEq

/-- Modelled from the spec: the immutable transfers.Transfer options record
(transfers.py is not in src/); defaults follow the spec and the transfer
docstring (new_tip once, carryover on, air gap and disposal volume zero,
no mixing / touch-tip / blow-out).  gradient_function is an opaque handle
for the caller-supplied curve, 0 standing for the identity default. -/
structure Transfer where
  new_tip : TransferTipPolicy := TransferTipPolicy.ONCE
  air_gap : Rat := 0
  carryover : Bool := true
  gradient_function : Nat := 0
  disposal_volume : Rat := 0
  mix_strategy : MixStrategy := MixStrategy.NEVER
  blow_out_strategy : BlowOutStrategy := BlowOutStrategy.NONE
  touch_tip_strategy : TouchTipStrategy := TouchTipStrategy.NEVER
  drop_tip_strategy : DropTipStrategy := DropTipStrategy.TRASH
deriving DecidableEq

/-- Modelled from the spec: transfers.TransferOptions, the transfer and mix
option records combined. -/
structure TransferOptions where
  transfer_args : Transfer := {}
  mix_opts : Mix := {}
deriving DecidableEq

/-- The keyword arguments InstrumentContext.transfer reads, each absent
unless the caller passed it. -/
structure Kwargs where
  mode : Option String := none
  new_tip : Option String := none
  air_gap : Option Rat := none
  carryover : Option Bool := none
  blow_out : Option Bool := none
  touch_tip : Option Bool := none
  gradient_function : Option Nat := none
  disposal_vol : Option Rat := none
  disposal_volume : Option Rat := none
  mix_before : Option (Nat × Rat) := none
  mix_after : Option (Nat × Rat) := none
  trash : Option Bool := none

/-- Python str.upper as applied to the new_tip kwarg: every character
mapped to its upper-case form. -/
def str_upper (s : String) : String :=
  String.mk (s.data.map Char.toUpper)

/-- The new_tip handling at the top of transfer: a present new_tip kwarg is
upper-cased and looked up in TransferTipPolicy; an unknown name raises
KeyError from the Enum lookup (the following ValueError branch guarded by
new_tip being None in the source is unreachable, since the lookup never
returns None). -/
def parse_new_tip_policy (kwargs : Kwargs) : Except ApiError Transfer :=
  match kwargs.new_tip with
  | none => Except.ok {}
  | some s =>
    match TransferTipPolicy.lookup (str_upper s) with
    | none => Except.error ApiError.keyError
    | some tp => Except.ok { new_tip := tp }

/-- The option-building section of InstrumentContext.transfer: the
_replace chain over transfers.Transfer plus the mix-strategy cases and the
trash kwarg, in source order. -/
def build_transfer_options (kwargs : Kwargs) : Except ApiError TransferOptions :=
  match parse_new_tip_policy kwargs with
  | Except.error e => Except.error e
  | Except.ok ta0 =>
    let ta1 := match kwargs.air_gap with
      | some v => { ta0 with air_gap := v }
      | none => ta0
    let ta2 := match kwargs.carryover with
      | some b => { ta1 with carryover := b }
      | none => ta1
    let ta3 := if kwargs.blow_out.getD false then
        { ta2 with blow_out_strategy := BlowOutStrategy.TRASH }
      else ta2
    let ta4 := if kwargs.touch_tip.getD false then
        { ta3 with touch_tip_strategy := TouchTipStrategy.ALWAYS }
      else ta3
    let ta5 := match kwargs.gradient_function with
      | some g => { ta4 with gradient_function := g }
      | none => ta4
    let ta6 := match kwargs.disposal_vol with
      | some v => { ta5 with disposal_volume := v }
      | none => ta5
    let mixPair : MixStrategy × Mix :=
      match kwargs.mix_before, kwargs.mix_after with
      | some b, some a =>
        (MixStrategy.BOTH,
         { mix_before := { repetitions := b.1, volume := b.2 },
           mix_after := { repetitions := a.1, volume := a.2 } })
      | some b, none =>
        (MixStrategy.BEFORE,
         { mix_before := { repetitions := b.1, volume := b.2 } })
      | none, some a =>
        (MixStrategy.AFTER,
         { mix_after := { repetitions := a.1, volume := a.2 } })
      | none, none => (MixStrategy.NEVER, {})
    let dropTipStrategy := if kwargs.trash.getD false then
        DropTipStrategy.TRASH
      else DropTipStrategy.RETURN
    let ta7 := { ta6 with mix_strategy := mixPair.1,
                          drop_tip_strategy := dropTipStrategy }
    Except.ok { transfer_args := ta7, mix_opts := mixPair.2 }

/-- The parameter payload of one command descriptor: the source dispatches
with keyword splat when params is a dict and positional splat otherwise. -/
inductive Params
  | named (kv : List (String × Int))
  | positional (vs : List Int)
deriving DecidableEq

/-- One lazily-yielded plan entry: the instrument method name and its bound
parameters. -/
structure CommandDescriptor where
  method : String
  params : Params
deriving DecidableEq

/-- The execution loop of InstrumentContext.transfer: each yielded
descriptor is dispatched (getattr on the method name, called with the
bound parameters) against the instrument; the first raised error aborts
the loop and propagates.  Returns the descriptors actually dispatched, in
order, with the final state or the propagated error. -/
def execute_plan {σ : Type} (instr : String → Params → σ → Except ApiError σ) :
    List CommandDescriptor → σ → List CommandDescriptor × Except ApiError σ
  | [], s => ([], Except.ok s)
  | c :: rest, s =>
    match instr c.method c.params s with
    | Except.ok s2 =>
      let r := execute_plan instr rest s2
      (c :: r.1, r.2)
    | Except.error e => ([c], Except.error e)

/-- InstrumentContext.transfer: mode defaults to transfer, the options are
built from the kwargs (an unknown new_tip raising before anything else),
the plan is produced by the transfers.TransferPlan collaborator
(plan_build, parametrised since transfers.py is not in src/), and the plan
is executed descriptor by descriptor. -/
def transfer {σ : Type}
    (plan_build : String → Rat → List Well → List Well → TransferOptions →
      List CommandDescriptor)
    (instr : String → Params → σ → Except ApiError σ)
    (volume : Rat) (source dest : List Well) (kwargs : Kwargs) (s : σ) :
    List CommandDescriptor × Except ApiError σ :=
  let mode := kwargs.mode.getD "transfer"
  match build_transfer_options kwargs with
  | Except.error e => ([], Except.error e)
  | Except.ok opts => execute_plan instr (plan_build mode volume source dest opts) s

/-- The kwargs rewriting of InstrumentContext.distribute: mode becomes
distribute and disposal_vol defaults to the pipette's min_volume when the
caller gave no disposal_volume. -/
def distribute_kwargs (min_volume : Rat) (kwargs : Kwargs) : Kwargs :=
  { kwargs with mode := some "distribute",
                disposal_vol := some (kwargs.disposal_volume.getD min_volume) }

/-- InstrumentContext.distribute: rewrite the kwargs and delegate to
transfer. -/
def distribute {σ : Type}
    (plan_build : String → Rat → List Well → List Well → TransferOptions →
      List CommandDescriptor)
    (instr : String → Params → σ → Except ApiError σ)
    (min_volume : Rat) (volume : Rat) (source dest : List Well)
    (kwargs : Kwargs) (s : σ) : List CommandDescriptor × Except ApiError σ :=
  transfer plan_build instr volume source dest (distribute_kwargs min_volume kwargs) s

/-- The kwargs rewriting of InstrumentContext.consolidate: mode becomes
consolidate and disposal_vol defaults to 0. -/
def consolidate_kwargs (kwargs : Kwargs) : Kwargs :=
  { kwargs with mode := some "consolidate",
                disposal_vol := some (kwargs.disposal_volume.getD 0) }

/-- InstrumentContext.consolidate: rewrite the kwargs and delegate to
transfer. -/
def consolidate {σ : Type}
    (plan_build : String → Rat → List Well → List Well → TransferOptions →
      List CommandDescriptor)
    (instr : String → Params → σ → Except ApiError σ)
    (volume : Rat) (source dest : List Well)
    (kwargs : Kwargs) (s : σ) : List CommandDescriptor × Except ApiError σ :=
  transfer plan_build instr volume source dest (consolidate_kwargs kwargs) s

/-- Modelled from the spec: carryover splitting of one logical volume
(transfers.py is not in src/): a volume within the max step is one step; a
larger volume is split into ceil(volume / max_step) equal sub-steps. -/
def carryover_split (volume max_step : Rat) : List Rat :=
  if volume ≤ max_step then [volume]
  else
    let n : Nat := (Int.ceil (volume / max_step)).toNat
    List.replicate n (volume / (n : Rat))

/-- Modelled from the spec: in DISTRIBUTE mode one aspirate pulls the sum
of the grouped dispense volumes plus the disposal volume, once per
aspirate (transfers.py is not in src/). -/
def distribute_aspirate_volume (vols : List Rat) (disposal_volume : Rat) : Rat :=
  vols.sum + disposal_volume

/-- A sample well for concrete instantiations. -/
def w0 : Well := { id := 0 }

/-- Another sample well. -/
def w1 : Well := { id := 1 }

/-- A sample tip rack with no tips left for any channel count. -/
def rackEmpty : TipRack :=
  { rack_id := 0, tip_length := 50, next_tip := fun _ => none }

/-- A sample tip rack whose next available tip is w1. -/
def rackFull : TipRack :=
  { rack_id := 1, tip_length := 50, next_tip := fun _ => some w1 }

/-- A sample state whose first configured rack is exhausted and whose
second has a tip. -/
def sRacks : ApiState := { tip_racks := [rackEmpty, rackFull] }

/-- A sample state with a tip attached and an empty location cache. -/
def sTip : ApiState := { has_tip := true }

/-- A sample state with a tip attached and w0 recorded as the tip's
origin. -/
def sMarker : ApiState := { has_tip := true, last_tip_picked_up_from := some w0 }

/-- A sample hardware move function that raises on move 1. -/
def hwBad : Nat → Except Nat Unit :=
  fun m => if m = 1 then Except.error 7 else Except.ok ()

/-- A sample instrument collaborator over a Nat call-counter state that
raises on the method named boom and counts every other call. -/
def instr0 : String → Params → Nat → Except ApiError Nat :=
  fun m _ n =>
    if m = "boom" then Except.error ApiError.runtimeError else Except.ok (n + 1)

/-- A sample plan whose every step succeeds under instr0. -/
def planOk : List CommandDescriptor :=
  [{ method := "aspirate", params := Params.positional [] },
   { method := "dispense", params := Params.positional [] }]

/-- A sample plan whose middle step fails under instr0. -/
def planBoom : List CommandDescriptor :=
  [{ method := "aspirate", params := Params.positional [] },
   { method := "boom", params := Params.positional [] },
   { method := "dispense", params := Params.positional [] }]

/-- A sample plan builder returning planOk whatever its inputs. -/
def planb0 : String → Rat → List Well → List Well → TransferOptions →
    List CommandDescriptor :=
  fun _ _ _ _ _ => planOk

/-- The options transfer builds from empty kwargs (all defaults, except
that an absent trash kwarg selects the RETURN drop-tip strategy). -/
def optsDefault : TransferOptions :=
  { transfer_args := { drop_tip_strategy := DropTipStrategy.RETURN } }

/-- Claim C4: every call to mix, touch_tip or air_gap made while the
hardware pipette reports has_tip as false raises the no-tip-attached error
with an empty primitive trace: no motion or liquid-handling primitive is
issued. -/
theorem c4_no_tip_guard (s : ApiState) (reps : Nat) (vol : Option Rat)
    (loc : Option PyLoc) (rate : Rat) (locW : Option Well)
    (radius v_off speed : Rat) (vol2 height : Option Rat)
    (h : s.has_tip = false) :
    mix s reps vol loc rate = ([], Except.error ApiError.noTipAttached) ∧
    touch_tip s locW radius v_off speed =
      ([], Except.error ApiError.noTipAttached) ∧
    air_gap s vol2 height = ([], Except.error ApiError.noTipAttached) := by
  refine ⟨?_, ?_, ?_⟩ <;> simp [mix, touch_tip, air_gap, h]

/-- Witness for C4 at a concrete tipless state. -/
theorem c4_no_tip_guard_witness :
    ApiState.has_tip {} = false ∧
    mix {} 1 none none 1 = ([], Except.error ApiError.noTipAttached) := by
  exact ⟨rfl, (c4_no_tip_guard {} 1 none none 1 none 1 (-1) 60 none none rfl).1⟩

/-- Claim C5 counterexample: touch_tip called with no location while the
location cache is None but also no tip attached raises NoTipAttachedError,
not RuntimeError (the has_tip guard runs first), so the claim as stated
fails at this concrete input; air_gap behaves the same way. -/
theorem c5_runtime_error_counterexample :
    touch_tip {} none 1 (-1) 60 = ([], Except.error ApiError.noTipAttached) ∧
    air_gap {} none none = ([], Except.error ApiError.noTipAttached) ∧
    ApiError.noTipAttached ≠ ApiError.runtimeError := by
  refine ⟨rfl, rfl, by decide⟩

/-- Claim C5 (amended): with no explicit location and an empty (None)
location cache, blow_out raises RuntimeError unconditionally, and
touch_tip and air_gap raise RuntimeError provided a tip is attached (with
no tip they raise the no-tip error first); in every case no motion or
hardware primitive is performed. -/
theorem c5_location_cache_guard (s : ApiState) (radius v_off speed : Rat)
    (vol height : Option Rat) (h : s.location_cache = none) :
    blow_out s none = ([], Except.error ApiError.runtimeError) ∧
    (s.has_tip = true →
      touch_tip s none radius v_off speed =
        ([], Except.error ApiError.runtimeError)) ∧
    (s.has_tip = true →
      air_gap s vol height = ([], Except.error ApiError.runtimeError)) ∧
    (touch_tip s none radius v_off speed).1 = [] ∧
    (air_gap s vol height).1 = [] := by
  refine ⟨by simp [blow_out, h], fun htip => by simp [touch_tip, h, htip],
    fun htip => by simp [air_gap, h, htip], ?_, ?_⟩
  · cases htip : s.has_tip <;> simp [touch_tip, h, htip]
  · cases htip : s.has_tip <;> simp [air_gap, h, htip]

/-- Witness for C5 (amended) at a concrete state with a tip attached and
an empty cache. -/
theorem c5_location_cache_guard_witness :
    sTip.location_cache = none ∧ sTip.has_tip = true ∧
    blow_out sTip none = ([], Except.error ApiError.runtimeError) ∧
    touch_tip sTip none 1 (-1) 60 = ([], Except.error ApiError.runtimeError) := by
  have h := c5_location_cache_guard sTip 1 (-1) 60 none none rfl
  exact ⟨rfl, rfl, h.1, h.2.1 rfl⟩

/-- Claim C10: drop_tip with no location argument always raises
NotImplementedError with an empty primitive trace (it never reaches the
hardware), because it reads the trash_container property whose getter
unconditionally raises NotImplementedError; a drop succeeds only when an
explicit location was given. -/
theorem c10_drop_tip_trash_not_implemented (s : ApiState) :
    drop_tip s none = ([], Except.error ApiError.notImplemented) ∧
    trash_container = Except.error ApiError.notImplemented ∧
    (∀ loc tr s2, drop_tip s loc = (tr, Except.ok s2) → loc ≠ none) := by
  refine ⟨by simp [drop_tip, trash_container], rfl, ?_⟩
  intro loc tr s2 hok hnone
  subst hnone
  simp [drop_tip, trash_container] at hok

/-- Witness for C10: a concrete successful drop at an explicit well
location indeed has a non-None location. -/
theorem c10_drop_tip_trash_not_implemented_witness :
    (some (DropLoc.well w0) : Option DropLoc) ≠ none := by
  refine (c10_drop_tip_trash_not_implemented {}).2.2 (some (DropLoc.well w0))
    [Prim.moveTo (Loc.wellTop w0), Prim.hwDropTip]
    { location_cache := some (Loc.wellTop w0), has_tip := false,
      last_tip_picked_up_from := none, tip_racks := [] } rfl

/-- Claim C9: in move_to, if any underlying hardware move raises, the
location cache is set to None and the exception propagates; if all moves
succeed the cache is set to the requested location; the cache never holds
the pre-move location after a failed move. -/
theorem c9_move_to_cache_invalidation (hw_move : Nat → Except Nat Unit)
    (moves : List Nat) (cache : Option Loc) (location : Loc) :
    (∀ e, run_moves hw_move moves = Except.error e →
      move_to_with_hardware hw_move moves cache location =
        (none, Except.error e)) ∧
    (run_moves hw_move moves = Except.ok () →
      move_to_with_hardware hw_move moves cache location =
        (some location, Except.ok ())) ∧
    ((move_to_with_hardware hw_move moves cache location).2 ≠ Except.ok () →
      (move_to_with_hardware hw_move moves cache location).1 = none) := by
  cases h : run_moves hw_move moves with
  | ok u => cases u; refine ⟨?_, ?_, ?_⟩ <;> simp [move_to_with_hardware, h]
  | error e => refine ⟨?_, ?_, ?_⟩ <;> simp [move_to_with_hardware, h]

/-- Witness for C9: a concrete failing move sequence clears the cache and
propagates the hardware error. -/
theorem c9_move_to_cache_invalidation_witness :
    move_to_with_hardware hwBad [0, 1, 2] (some (Loc.wellTop w0))
      (Loc.wellTop w1) = (none, Except.error 7) := by
  exact (c9_move_to_cache_invalidation hwBad [0, 1, 2] (some (Loc.wellTop w0))
    (Loc.wellTop w1)).1 7 rfl

/-- Claim C2: a transfer call whose new_tip kwarg upper-cases to an
unrecognized tip policy name raises at plan-build time (the Enum lookup's
KeyError), for every plan builder and instrument alike — so before the
transfer plan is constructed and with no descriptor ever dispatched. -/
theorem c2_unknown_new_tip_errors_before_plan (σ : Type)
    (plan_build : String → Rat → List Well → List Well → TransferOptions →
      List CommandDescriptor)
    (instr : String → Params → σ → Except ApiError σ)
    (volume : Rat) (source dest : List Well) (kwargs : Kwargs) (s : σ)
    (str : String) (h1 : kwargs.new_tip = some str)
    (h2 : TransferTipPolicy.lookup (str_upper str) = none) :
    transfer plan_build instr volume source dest kwargs s =
      ([], Except.error ApiError.keyError) := by
  simp [transfer, build_transfer_options, parse_new_tip_policy, h1, h2]

/-- Witness for C2 with the concrete unknown policy name sometimes. -/
theorem c2_unknown_new_tip_errors_before_plan_witness :
    transfer planb0 instr0 50 [] [] { new_tip := some "sometimes" } 0 =
      ([], Except.error ApiError.keyError) := by
  exact c2_unknown_new_tip_errors_before_plan Nat planb0 instr0 50 [] []
    { new_tip := some "sometimes" } 0 "sometimes" rfl (by decide)

/-- Claim C6 counterexample: a distribute call that configures no disposal
volume still gets one — the kwargs rewriting defaults disposal_vol to the
pipette's min_volume (here 30), the built options carry it, and the
planned single aspirate for three dispenses of 20 is 90, not the sum 60. -/
theorem c6_distribute_disposal_counterexample :
    (distribute_kwargs 30 {}).disposal_vol = some 30 ∧
    (build_transfer_options (distribute_kwargs 30 {})).map
      (fun o => o.transfer_args.disposal_volume) = Except.ok 30 ∧
    distribute_aspirate_volume [20, 20, 20] 30 = 90 ∧
    distribute_aspirate_volume [20, 20, 20] 30 ≠ ([20, 20, 20] : List Rat).sum := by
  refine ⟨rfl, rfl, by norm_num [distribute_aspirate_volume], ?_⟩
  norm_num [distribute_aspirate_volume]

/-- Claim C6 (amended): when the caller configures no disposal volume,
distribute defaults the disposal volume to the pipette's min_volume
(consolidate defaults it to 0), and the planned single aspirate equals the
sum of the per-destination dispense volumes plus that disposal volume —
the exact sum only when min_volume is 0. -/
theorem c6_distribute_disposal_default (min_volume : Rat) (kwargs : Kwargs)
    (h : kwargs.disposal_volume = none) :
    (distribute_kwargs min_volume kwargs).disposal_vol = some min_volume ∧
    (consolidate_kwargs kwargs).disposal_vol = some 0 ∧
    (∀ vols : List Rat,
      distribute_aspirate_volume vols min_volume = vols.sum + min_volume) := by
  exact ⟨by simp [distribute_kwargs, h], by simp [consolidate_kwargs, h],
    fun _ => rfl⟩

/-- Witness for C6 (amended) at min_volume 30 and empty kwargs. -/
theorem c6_distribute_disposal_default_witness :
    (distribute_kwargs 30 {}).disposal_vol = some (30 : Rat) ∧
    (consolidate_kwargs {}).disposal_vol = some (0 : Rat) := by
  have h := c6_distribute_disposal_default 30 {} rfl
  exact ⟨h.1, h.2.1⟩

/-- The recursive rack search fails with OutOfTipsError exactly when no
configured rack has an available tip, the empty list included. -/
theorem select_tiprack_none_iff (nc : Nat) (racks : List TipRack) :
    select_tiprack_from_list nc racks = Except.error ApiError.outOfTips ↔
      ∀ tr ∈ racks, tr.next_tip nc = none := by
  induction racks with
  | nil => simp [select_tiprack_from_list]
  | cons tr rest ih =>
    cases h : tr.next_tip nc with
    | some w => simp [select_tiprack_from_list, h]
    | none => simp [select_tiprack_from_list, h, ih]

/-- The only error the rack search raises is OutOfTipsError. -/
theorem select_tiprack_error_only (nc : Nat) (racks : List TipRack) (e : ApiError)
    (h : select_tiprack_from_list nc racks = Except.error e) :
    e = ApiError.outOfTips := by
  induction racks with
  | nil =>
    simp [select_tiprack_from_list] at h
    exact h.symm
  | cons tr rest ih =>
    cases htr : tr.next_tip nc with
    | some w => simp [select_tiprack_from_list, htr] at h
    | none =>
      simp [select_tiprack_from_list, htr] at h
      exact ih h

/-- A successful rack search returns a configured rack together with its
available tip. -/
theorem select_tiprack_ok_spec (nc : Nat) (racks : List TipRack)
    (tr : TipRack) (w : Well)
    (h : select_tiprack_from_list nc racks = Except.ok (tr, w)) :
    tr ∈ racks ∧ tr.next_tip nc = some w := by
  induction racks with
  | nil => simp [select_tiprack_from_list] at h
  | cons t rest ih =>
    cases ht : t.next_tip nc with
    | some w2 =>
      simp [select_tiprack_from_list, ht] at h
      refine ⟨by simp [h.1.symm], ?_⟩
      rw [← h.1, ht, h.2]
    | none =>
      simp [select_tiprack_from_list, ht] at h
      obtain ⟨hmem, hnext⟩ := ih h
      exact ⟨List.mem_cons_of_mem t hmem, hnext⟩

/-- The rack search visits the racks in list order: with every earlier rack
exhausted, the first rack holding a tip is returned with that tip. -/
theorem select_tiprack_first (nc : Nat) (pre : List TipRack) (r : TipRack)
    (post : List TipRack) (w : Well)
    (hpre : ∀ tr ∈ pre, tr.next_tip nc = none)
    (hr : r.next_tip nc = some w) :
    select_tiprack_from_list nc (pre ++ r :: post) = Except.ok (r, w) := by
  induction pre with
  | nil => simp [select_tiprack_from_list, hr]
  | cons t ts ih =>
    have ht : t.next_tip nc = none := hpre t (by simp)
    simp only [List.cons_append, select_tiprack_from_list, ht]
    exact ih fun tr htr => hpre tr (by simp [htr])

/-- The only error the new_tip parsing raises is the Enum lookup's
KeyError. -/
theorem parse_new_tip_error_only (kwargs : Kwargs) (e : ApiError)
    (h : parse_new_tip_policy kwargs = Except.error e) :
    e = ApiError.keyError := by
  unfold parse_new_tip_policy at h
  cases hk : kwargs.new_tip with
  | none => simp [hk] at h
  | some str =>
    simp only [hk] at h
    cases hl : TransferTipPolicy.lookup (str_upper str) with
    | none =>
      simp [hl] at h
      exact h.symm
    | some tp => simp [hl] at h

/-- Claim C3: pick_up_tip with no location searches the configured tip
racks in list order, and the first rack holding an available tip for the
channel count supplies the target well (which then also becomes the
last-tip marker); it raises OutOfTipsError precisely when no configured
rack has a tip left, the empty rack list included — and the plan-build
phase (option building) never raises OutOfTipsError, the error being an
execution-time one. -/
theorem c3_pick_up_tip_search (nc presses : Nat) (increment : Rat)
    (s : ApiState) :
    (pick_up_tip nc presses increment s none =
        ([], Except.error ApiError.outOfTips) ↔
      ∀ tr ∈ s.tip_racks, tr.next_tip nc = none) ∧
    (∀ pre r post w, s.tip_racks = pre ++ r :: post →
      (∀ tr ∈ pre, tr.next_tip nc = none) → r.next_tip nc = some w →
      r.is_tiprack = true →
      pick_up_tip nc presses increment s none =
        ([Prim.moveTo (Loc.wellTop w),
          Prim.hwPickUpTip r.tip_length presses increment,
          Prim.useTips w nc],
         Except.ok { s with location_cache := some (Loc.wellTop w),
                            last_tip_picked_up_from := some w })) ∧
    (∀ kwargs : Kwargs,
      build_transfer_options kwargs ≠ Except.error ApiError.outOfTips) := by
  refine ⟨?_, ?_, ?_⟩
  · cases hsel : select_tiprack_from_list nc s.tip_racks with
    | ok p =>
      obtain ⟨tr, w⟩ := p
      obtain ⟨hmem, hnext⟩ := select_tiprack_ok_spec nc s.tip_racks tr w hsel
      constructor
      · intro h
        exfalso
        by_cases htp : tr.is_tiprack
        · simp [pick_up_tip, pick_up_target, hsel, htp, move_to,
            ApiResult.andThen] at h
        · simp [pick_up_tip, pick_up_target, hsel, htp] at h
      · intro hall
        exact absurd (hall tr hmem) (by simp [hnext])
    | error e =>
      have he := select_tiprack_error_only nc s.tip_racks e hsel
      subst he
      constructor
      · intro _
        exact (select_tiprack_none_iff nc s.tip_racks).mp hsel
      · intro _
        simp [pick_up_tip, pick_up_target, hsel]
  · intro pre r post w hracks hpre hr htp
    have hsel : select_tiprack_from_list nc s.tip_racks = Except.ok (r, w) := by
      rw [hracks]
      exact select_tiprack_first nc pre r post w hpre hr
    simp [pick_up_tip, pick_up_target, hsel, htp, move_to, ApiResult.andThen]
  · intro kwargs h
    cases hp : parse_new_tip_policy kwargs with
    | ok ta => simp [build_transfer_options, hp] at h
    | error e =>
      have he : e = ApiError.keyError := parse_new_tip_error_only kwargs e hp
      subst he
      simp [build_transfer_options, hp] at h

/-- Witness for C3: the concrete two-rack state skips the exhausted first
rack and picks from the second. -/
theorem c3_pick_up_tip_search_witness :
    pick_up_tip 1 3 1 sRacks none =
      ([Prim.moveTo (Loc.wellTop w1),
        Prim.hwPickUpTip rackFull.tip_length 3 1,
        Prim.useTips w1 1],
       Except.ok { sRacks with location_cache := some (Loc.wellTop w1),
                               last_tip_picked_up_from := some w1 }) := by
  refine (c3_pick_up_tip_search 1 3 1 sRacks).2.1 [rackEmpty] rackFull [] w1
    rfl ?_ rfl rfl
  intro tr htr
  simp at htr
  subst htr
  rfl

/-- Claim C7: return_tip drops the attached tip at the top of the well the
last successful pick_up_tip recorded (every successful pick_up_tip records
its target well in the marker), every completed drop_tip — return_tip's
included — clears that marker to None, and return_tip with no recorded
origin well raises a TypeError instead of dropping anywhere. -/
theorem c7_return_tip_origin (s : ApiState) (w : Well) :
    (s.last_tip_picked_up_from = some w →
      return_tip s =
        ([Prim.moveTo (Loc.wellTop w), Prim.hwDropTip],
         Except.ok { s with location_cache := some (Loc.wellTop w),
                            last_tip_picked_up_from := none })) ∧
    (s.last_tip_picked_up_from = none →
      return_tip s = ([], Except.error ApiError.typeError)) ∧
    (∀ loc tr s2, drop_tip s loc = (tr, Except.ok s2) →
      s2.last_tip_picked_up_from = none) ∧
    (∀ nc presses increment loc tr s2,
      pick_up_tip nc presses increment s loc = (tr, Except.ok s2) →
      ∃ t len, s2.last_tip_picked_up_from = some t ∧
        tr = [Prim.moveTo (Loc.wellTop t), Prim.hwPickUpTip len presses increment,
              Prim.useTips t nc]) := by
  refine ⟨?_, ?_, ?_, ?_⟩
  · intro h
    simp [return_tip, h, drop_tip, move_to, ApiResult.andThen]
  · intro h
    simp [return_tip, h]
  · intro loc tr s2 hok
    match loc with
    | none => simp [drop_tip, trash_container] at hok
    | some (DropLoc.well w2) =>
      simp [drop_tip, move_to, ApiResult.andThen] at hok
      rw [← hok.2]
    | some DropLoc.otherLoc => simp [drop_tip, trash_container] at hok
    | some (DropLoc.labware wells) =>
      cases hw : wells.head? with
      | none => simp [drop_tip, hw] at hok
      | some w2 =>
        simp [drop_tip, hw, move_to, ApiResult.andThen] at hok
        rw [← hok.2]
  · intro nc presses increment loc tr s2 hok
    cases hsel : pick_up_target nc s loc with
    | error e => simp [pick_up_tip, hsel] at hok
    | ok p =>
      obtain ⟨tiprack, target⟩ := p
      cases target with
      | none => simp [pick_up_tip, hsel] at hok
      | some t =>
        by_cases htp : tiprack.is_tiprack
        · simp [pick_up_tip, hsel, htp, move_to, ApiResult.andThen] at hok
          refine ⟨t, tiprack.tip_length, ?_, hok.1.symm⟩
          rw [← hok.2]
        · simp [pick_up_tip, hsel, htp] at hok

/-- Witness for C7: from a concrete state with w0 recorded as origin,
return_tip drops at the top of w0 and clears the marker. -/
theorem c7_return_tip_origin_witness :
    return_tip sMarker =
      ([Prim.moveTo (Loc.wellTop w0), Prim.hwDropTip],
       Except.ok { sMarker with location_cache := some (Loc.wellTop w0),
                                last_tip_picked_up_from := none }) := by
  exact (c7_return_tip_origin sMarker w0).1 rfl

/-- A plan that executes to completion dispatches exactly its descriptor
list. -/
theorem execute_plan_ok_dispatches_all {σ : Type}
    (instr : String → Params → σ → Except ApiError σ) :
    ∀ (plan : List CommandDescriptor) (s s2 : σ),
      (execute_plan instr plan s).2 = Except.ok s2 →
      (execute_plan instr plan s).1 = plan := by
  intro plan
  induction plan with
  | nil => intro s s2 _; rfl
  | cons c rest ih =>
    intro s s2 h
    cases hc : instr c.method c.params s with
    | ok sN =>
      have h2 : (execute_plan instr rest sN).2 = Except.ok s2 := by
        simpa [execute_plan, hc] using h
      simp [execute_plan, hc]
      exact ih sN s2 h2
    | error e => simp [execute_plan, hc] at h

/-- A plan whose execution raises dispatches exactly the descriptors up to
and including the failing one: the earlier prefix ran successfully, the
failing descriptor's own instrument call raised the propagated error, and
nothing after it was dispatched. -/
theorem execute_plan_error_stops {σ : Type}
    (instr : String → Params → σ → Except ApiError σ) :
    ∀ (plan : List CommandDescriptor) (s : σ) (e : ApiError),
      (execute_plan instr plan s).2 = Except.error e →
      ∃ pre c post s_i, plan = pre ++ c :: post ∧
        (execute_plan instr plan s).1 = pre ++ [c] ∧
        execute_plan instr pre s = (pre, Except.ok s_i) ∧
        instr c.method c.params s_i = Except.error e := by
  intro plan
  induction plan with
  | nil => intro s e h; simp [execute_plan] at h
  | cons c rest ih =>
    intro s e h
    cases hc : instr c.method c.params s with
    | error e0 =>
      have he : e0 = e := by simpa [execute_plan, hc] using h
      refine ⟨[], c, rest, s, by simp, by simp [execute_plan, hc],
        by simp [execute_plan], ?_⟩
      rw [hc, he]
    | ok sN =>
      have h2 : (execute_plan instr rest sN).2 = Except.error e := by
        simpa [execute_plan, hc] using h
      obtain ⟨pre, c2, post, s_i, hplan, htr, hrun, hfail⟩ := ih sN e h2
      refine ⟨c :: pre, c2, post, s_i, by simp [hplan], ?_, ?_, hfail⟩
      · simp [execute_plan, hc, htr]
      · simp [execute_plan, hc, hrun]

/-- Claim C1: the executor dispatches the plan's descriptors one at a time
in plan order (the dispatch list is always an initial segment of the
plan), a completed run dispatches the whole plan, a raised error from any
primitive call propagates immediately — the failing descriptor is the last
one dispatched, the rest of the plan is never dispatched, and there is no
retry or rollback of already-executed commands — and transfer (hence
distribute and consolidate, which delegate to it) runs exactly the plan
built from its options through this executor. -/
theorem c1_plan_execution_order (σ : Type)
    (instr : String → Params → σ → Except ApiError σ)
    (plan : List CommandDescriptor) (s : σ) :
    (∃ rest, (execute_plan instr plan s).1 ++ rest = plan) ∧
    (∀ s2, (execute_plan instr plan s).2 = Except.ok s2 →
      (execute_plan instr plan s).1 = plan) ∧
    (∀ e, (execute_plan instr plan s).2 = Except.error e →
      ∃ pre c post s_i, plan = pre ++ c :: post ∧
        (execute_plan instr plan s).1 = pre ++ [c] ∧
        execute_plan instr pre s = (pre, Except.ok s_i) ∧
        instr c.method c.params s_i = Except.error e) ∧
    (∀ plan_build volume source dest kwargs opts,
      build_transfer_options kwargs = Except.ok opts →
      transfer plan_build instr volume source dest kwargs s =
        execute_plan instr
          (plan_build (kwargs.mode.getD "transfer") volume source dest opts) s) := by
  refine ⟨?_, execute_plan_ok_dispatches_all instr plan s,
    execute_plan_error_stops instr plan s, ?_⟩
  · cases h : (execute_plan instr plan s).2 with
    | ok s2 =>
      exact ⟨[], by simp [execute_plan_ok_dispatches_all instr plan s s2 h]⟩
    | error e =>
      obtain ⟨pre, c, post, s_i, hplan, htr, hrun, hfail⟩ :=
        execute_plan_error_stops instr plan s e h
      refine ⟨post, ?_⟩
      rw [htr, hplan]
      simp
  · intro plan_build volume source dest kwargs opts hopts
    simp [transfer, hopts]

/-- Witness for C1: under the concrete counting instrument, the all-good
plan dispatches fully, the plan with a failing middle step dispatches only
its first two descriptors with the failure isolated there, and transfer on
empty kwargs runs the built plan through the executor. -/
theorem c1_plan_execution_order_witness :
    (execute_plan instr0 planOk 0).1 = planOk ∧
    (∃ pre c post s_i, planBoom = pre ++ c :: post ∧
      (execute_plan instr0 planBoom 0).1 = pre ++ [c] ∧
      execute_plan instr0 pre 0 = (pre, Except.ok s_i) ∧
      instr0 c.method c.params s_i = Except.error ApiError.runtimeError) ∧
    transfer planb0 instr0 50 [] [] {} 0 =
      execute_plan instr0 (planb0 "transfer" 50 [] [] optsDefault) 0 := by
  refine ⟨(c1_plan_execution_order Nat instr0 planOk 0).2.1 2 (by rfl),
    (c1_plan_execution_order Nat instr0 planBoom 0).2.2.1 ApiError.runtimeError
      (by rfl),
    (c1_plan_execution_order Nat instr0 planOk 0).2.2.2 planb0 50 [] [] {}
      optsDefault (by rfl)⟩

/-- Summing n equal shares of V over a nonzero n recovers V. -/
theorem replicate_div_sum (n : Nat) (V : Rat) (h : n ≠ 0) :
    (List.replicate n (V / (n : Rat))).sum = V := by
  have hn : ((n : Rat)) ≠ 0 := Nat.cast_ne_zero.mpr h
  rw [List.sum_replicate, nsmul_eq_mul, mul_comm, div_mul_cancel₀ V hn]

/-- Claim C8: for a requested volume V exceeding the pipette maximum M
(with carryover enabled), the carryover split produces sub-step volumes
that sum exactly to V (rational arithmetic, so within any floating-point
tolerance), each sub-step volume being at most M. -/
theorem c8_carryover_volume_conservation (V M : Rat) (hM : 0 < M)
    (hVM : M < V) :
    (carryover_split V M).sum = V ∧ ∀ v ∈ carryover_split V M, v ≤ M := by
  have hnot : ¬ V ≤ M := not_le.mpr hVM
  have hV : 0 < V := hM.trans hVM
  have hq : (0 : Rat) < V / M := div_pos hV hM
  have hcpos : 0 < Int.ceil (V / M) := Int.ceil_pos.mpr hq
  have hnz : ((Int.ceil (V / M)).toNat : Int) = Int.ceil (V / M) :=
    Int.toNat_of_nonneg hcpos.le
  have hnne : (Int.ceil (V / M)).toNat ≠ 0 := by
    intro h0
    rw [h0] at hnz
    omega
  have hnQ : (((Int.ceil (V / M)).toNat : Nat) : Rat) =
      ((Int.ceil (V / M) : Int) : Rat) := by
    exact_mod_cast congrArg (fun z : Int => (z : Rat)) hnz
  have hle : V / M ≤ (((Int.ceil (V / M)).toNat : Nat) : Rat) := by
    rw [hnQ]
    exact Int.le_ceil (V / M)
  have hnQpos : (0 : Rat) < (((Int.ceil (V / M)).toNat : Nat) : Rat) := by
    have := Nat.pos_of_ne_zero hnne
    exact_mod_cast this
  constructor
  · simp only [carryover_split, if_neg hnot]
    exact replicate_div_sum ((Int.ceil (V / M)).toNat) V hnne
  · intro v hv
    simp only [carryover_split, if_neg hnot, List.mem_replicate] at hv
    obtain ⟨-, rfl⟩ := hv
    rw [div_le_iff₀ hnQpos]
    have hmul : V / M * M ≤ (((Int.ceil (V / M)).toNat : Nat) : Rat) * M :=
      mul_le_mul_of_nonneg_right hle hM.le
    rw [div_mul_cancel₀ V (ne_of_gt hM)] at hmul
    linarith

/-- Witness for C8: splitting 400 against a 300 maximum. -/
theorem c8_carryover_volume_conservation_witness :
    (0 : Rat) < 300 ∧ (300 : Rat) < 400 ∧
    ((carryover_split 400 300).sum = 400 ∧
      ∀ v ∈ carryover_split 400 300, v ≤ 300) := by
  exact ⟨by norm_num, by norm_num,
    c8_carryover_volume_conservation 400 300 (by norm_num) (by norm_num)⟩
